import Mathlib

/-!
Shallow embedding of `hoomd/md/tune/nlist_buffer.py`: the `_IntervalTPS`
throughput estimator and the `_NeighborListBufferInternal` autotuning
controller.  Timesteps are naturals, walltimes and throughputs rationals,
Python `None` becomes `Option.none`.  The solver object is opaque in the
excerpt, so it is modelled as a state-transition function supplied as a
parameter: given its own state, the tunable's current `x` and the sampled
`y`, it returns its new state, the new `x` it wrote through the tunable's
setter, and the convergence flag it reports from `solve`.
-/

/-- `_SCALE_TPS = 1e3` from the source. -/
def SCALE_TPS : ℚ := 1000

/-- The fields of the `Simulation` collaborator that the estimator reads:
`timestep`, `walltime` and `initial_timestep`. -/
structure SimState where
  timestep : ℕ
  walltime : ℚ
  initial_timestep : ℕ
deriving DecidableEq

/-- State of `_IntervalTPS`: `_initial_timestep`, `_last_timestep`,
`_last_walltime`, `_last_tps`, all `None` at construction. -/
structure IntervalTPS where
  initial_timestep : Option ℕ
  last_timestep : Option ℕ
  last_walltime : Option ℚ
  last_tps : Option ℚ
deriving DecidableEq

/-- `_IntervalTPS.__init__`: every field starts as `None`. -/
def IntervalTPS.mk0 : IntervalTPS :=
  { initial_timestep := none, last_timestep := none,
    last_walltime := none, last_tps := none }

/-- `_IntervalTPS.update`: record the current walltime and timestep as the
baseline. -/
def IntervalTPS.update (s : IntervalTPS) (sim : SimState) : IntervalTPS :=
  { s with last_walltime := some sim.walltime,
           last_timestep := some sim.timestep }

/-- `_IntervalTPS.get_tps`: `None` when no baseline exists, otherwise
`delta_t / (_SCALE_TPS * delta_w)`. -/
def IntervalTPS.get_tps (s : IntervalTPS) (sim : SimState) : Option ℚ :=
  match s.last_walltime, s.last_timestep with
  | some lw, some lt =>
      some (((sim.timestep : ℚ) - (lt : ℚ)) / (SCALE_TPS * (sim.walltime - lw)))
  | _, _ => none

/-- The common tail of `_IntervalTPS.__call__`: compute `get_tps`, store it
in `_last_tps`, call `update`, and return it. -/
def IntervalTPS.finishCall (s : IntervalTPS) (sim : SimState) :
    IntervalTPS × Option ℚ :=
  let tps := s.get_tps sim
  (IntervalTPS.update { s with last_tps := tps } sim, tps)

/-- The guard `self._initial_timestep is None or start > self._initial_timestep`. -/
def isNewRun : Option ℕ → ℕ → Bool
  | none, _ => true
  | some i, start => decide (i < start)

/-- `_IntervalTPS.__call__`, the estimator sample. -/
def IntervalTPS.call (s : IntervalTPS) (sim : SimState) :
    IntervalTPS × Option ℚ :=
  if s.last_timestep = some sim.timestep then
    (s, s.last_tps)
  else
    let start := sim.initial_timestep
    if isNewRun s.initial_timestep start then
      let s1 : IntervalTPS := { s with initial_timestep := some start }
      if s1.last_timestep = some start then
        IntervalTPS.finishCall { s1 with last_walltime := some 0 } sim
      else
        (s1.update sim, none)
    else
      IntervalTPS.finishCall s sim

/-- Run the estimator over a list of simulation samples, one `__call__`
per sample, collecting the returned values. -/
def runEstimator : IntervalTPS → List SimState → IntervalTPS × List (Option ℚ)
  | s, [] => (s, [])
  | s, sim :: rest =>
      let r := s.call sim
      let rr := runEstimator r.1 rest
      (rr.1, r.2 :: rr.2)

/-- The throughput sequence the specification predicts for a run of
consecutive samples with a fixed previous sample: each entry is
delta timestep over `1000 ·` delta walltime against the previous sample. -/
def specThroughputs : SimState → List SimState → List (Option ℚ)
  | _, [] => []
  | prev, sim :: rest =>
      some (((sim.timestep : ℚ) - (prev.timestep : ℚ))
              / (1000 * (sim.walltime - prev.walltime)))
        :: specThroughputs sim rest

/-- The `ManualTuneDefinition` built by `_make_tunable`, restricted to the
state the excerpt manipulates: the estimator behind `get_y` and the
`domain` pair.  Its `x` accessor reads and writes `nlist.buffer`, which is
kept on the controller itself. -/
structure Tunable where
  est : IntervalTPS
  domain : ℚ × ℚ
deriving DecidableEq

/-- A solver's `solve` step as visible through the excerpt: from the
solver's internal state, the tunable's `x` and the sampled `y`, produce
the new internal state, the `x` value left in the tunable, and the
returned convergence flag. -/
abbrev Solver (σ : Type) := σ → ℚ → Option ℚ → σ × ℚ × Bool

/-- State of `_NeighborListBufferInternal`.  `attached` is
`self._simulation is not None`; `buffer` is `self.nlist.buffer`;
`tunable` is `self._tunable` (`None` while detached). -/
structure Controller (σ : Type) where
  attached : Bool
  tuned : Bool
  last_tps : ℚ
  best_buffer_size : ℚ
  max_tps : ℚ
  maximum_buffer : ℚ
  buffer : ℚ
  tunable : Option Tunable
  solver : σ
deriving DecidableEq

/-- `_NeighborListBufferInternal.__init__`: detached, untuned, with the
default log values `_last_tps = 0`, `_best_buffer_size = nlist.buffer`,
`_max_tps = 0`. -/
def Controller.init {σ : Type} (solver0 : σ)
    (nlist_buffer maxbuf : ℚ) : Controller σ :=
  { attached := false, tuned := false, last_tps := 0,
    best_buffer_size := nlist_buffer, max_tps := 0,
    maximum_buffer := maxbuf, buffer := nlist_buffer,
    tunable := none, solver := solver0 }

/-- `attach`: store the simulation and build a fresh tunable whose
estimator is a new `_IntervalTPS` and whose domain is
`(0, self.maximum_buffer)`. -/
def Controller.attach {σ : Type} (c : Controller σ) : Controller σ :=
  { c with attached := true,
           tunable := some { est := IntervalTPS.mk0,
                             domain := (0, c.maximum_buffer) } }

/-- `detach`: drop the simulation and the tunable. -/
def Controller.detach {σ : Type} (c : Controller σ) : Controller σ :=
  { c with attached := false, tunable := none }

/-- `_maximum_buffer_post` together with the `ParameterDict` store: while
attached, re-narrow the tunable's domain to `(0, value)`; in every case
store the new `maximum_buffer`. -/
def Controller.set_maximum_buffer {σ : Type} (c : Controller σ)
    (value : ℚ) : Controller σ :=
  if c.attached then
    { c with tunable := c.tunable.map fun tn => { tn with domain := (0, value) },
             maximum_buffer := value }
  else
    { c with maximum_buffer := value }

/-- `_NeighborListBufferInternal.act`: sample `y` through the tunable
(which advances the estimator), record `_last_tps = y * _SCALE_TPS` when
`y` is not `None`, and while untuned run the best-value bookkeeping and
`solver.solve`. -/
def Controller.act {σ : Type} (solve : Solver σ) (c : Controller σ)
    (sim : SimState) : Controller σ :=
  match c.tunable with
  | none => c
  | some tn =>
      let r := tn.est.call sim
      let c1 := { c with tunable := some { tn with est := r.1 } }
      let c2 := match r.2 with
        | some v => { c1 with last_tps := v * SCALE_TPS }
        | none => c1
      if c2.tuned then c2
      else
        let c3 := match r.2 with
          | some v =>
              if c2.max_tps < v then
                { c2 with best_buffer_size := c2.buffer,
                          max_tps := c2.last_tps }
              else c2
          | none => c2
        let sres := solve c3.solver c3.buffer r.2
        { c3 with solver := sres.1, buffer := sres.2.1, tuned := sres.2.2 }

/-- Modelled from the spec: the `SetOnce` validator of
`hoomd.data.typeconverter`, used for the `nlist` and `solver` entries of
the controller's parameter dictionary, is not part of the excerpt
sources.  Per the spec, such fields are set-once: the first assignment
stores the value, and any later assignment is "signaled immediately, not
deferred".  An error outcome leaves the stored value untouched. -/
def setOnceAssign {α : Type} : Option α → α → Except Unit (Option α)
  | none, v => Except.ok (some v)
  | some _, _ => Except.error ()

/-- The stored value after an assignment attempt through `setOnceAssign`:
on success the new store, on error the old store unchanged. -/
def setOnceApply {α : Type} (cur : Option α) (v : α) : Option α :=
  match setOnceAssign cur v with
  | Except.ok r => r
  | Except.error _ => cur

-- Concrete solver used in the counterexample scenarios: never converges
-- and always writes `1/5` into the tunable.
def gridSolve : Solver Unit := fun _ _ _ => ((), 1/5, false)

-- Concrete solver that immediately reports convergence and keeps `x`.
def convergeSolve : Solver Unit := fun s x _ => (s, x, true)

-- A concrete mid-session tunable: estimator baseline at timestep 0 and
-- walltime 0, domain (0, 1).
def tnEx : Tunable :=
  { est := { initial_timestep := some 0, last_timestep := some 0,
             last_walltime := some 0, last_tps := none },
    domain := (0, 1) }

-- A concrete attached, untuned controller mid-session: buffer 1/10, no
-- best value recorded yet.
def c1ex : Controller Unit :=
  { attached := true, tuned := false, last_tps := 0,
    best_buffer_size := 1/10, max_tps := 0, maximum_buffer := 1,
    buffer := 1/10, tunable := some tnEx, solver := () }

-- A concrete attached controller whose session already reported
-- convergence: same as `c1ex` but with `tuned = true`.
def cTunedEx : Controller Unit := { c1ex with tuned := true }

/-- C6: if the simulation's timestep equals the estimator's recorded
`last_timestep` and a throughput was previously computed, then calling the
estimator twice returns that identical previous value both times and
leaves the whole estimator state — the baseline included — unchanged. -/
theorem estimator_stale_tick_idempotent (s : IntervalTPS) (sim : SimState)
    (v : ℚ) (hstale : s.last_timestep = some sim.timestep)
    (hprev : s.last_tps = some v) :
    s.call sim = (s, some v) ∧ (s.call sim).1.call sim = (s, some v) := by
  have h1 : s.call sim = (s, some v) := by
    simp [IntervalTPS.call, hstale, hprev]
  refine ⟨h1, ?_⟩
  rw [h1]
  exact h1

/-- Witness for C6 at a concrete estimator state and sample. -/
theorem estimator_stale_tick_idempotent_witness :
    IntervalTPS.call { initial_timestep := some 0, last_timestep := some 7,
                       last_walltime := some 1, last_tps := some (3/2) }
        ⟨7, 9, 0⟩
      = ({ initial_timestep := some 0, last_timestep := some 7,
           last_walltime := some 1, last_tps := some (3/2) }, some (3/2)) ∧
    (IntervalTPS.call { initial_timestep := some 0, last_timestep := some 7,
                        last_walltime := some 1, last_tps := some (3/2) }
        ⟨7, 9, 0⟩).1.call ⟨7, 9, 0⟩
      = ({ initial_timestep := some 0, last_timestep := some 7,
           last_walltime := some 1, last_tps := some (3/2) }, some (3/2)) :=
  estimator_stale_tick_idempotent _ _ _ rfl rfl

/-- C3 (amended): when `initial_timestep` has increased and the recorded
`last_timestep` differs from the new run start, the call returns `None`,
but the baseline is not cleared: it is overwritten with the current
sample's timestep and walltime (via `update`), so the next call computes
a throughput relative to this boundary sample. -/
theorem estimator_broken_interval (s : IntervalTPS) (sim : SimState)
    (i0 lt : ℕ) (hinit : s.initial_timestep = some i0)
    (hlast : s.last_timestep = some lt)
    (hgrow : i0 < sim.initial_timestep)
    (hne : lt ≠ sim.initial_timestep)
    (hstale : lt ≠ sim.timestep) :
    s.call sim = ({ s with initial_timestep := some sim.initial_timestep,
                           last_timestep := some sim.timestep,
                           last_walltime := some sim.walltime }, none) := by
  simp [IntervalTPS.call, IntervalTPS.update, hinit, hlast, hstale, hne,
        isNewRun, hgrow]

/-- Witness for the amended C3 at a concrete state and sample. -/
theorem estimator_broken_interval_witness :
    IntervalTPS.call { initial_timestep := some 0, last_timestep := some 5,
                       last_walltime := some 2, last_tps := none }
        ⟨12, 3, 10⟩
      = ({ initial_timestep := some 10, last_timestep := some 12,
           last_walltime := some 3, last_tps := none }, none) :=
  estimator_broken_interval _ _ 0 5 rfl rfl (by norm_num)
    (by norm_num) (by norm_num)

/-- C3 counterexample: at the same concrete broken-interval input the call
does return `None`, but the baseline is *not* cleared — `last_walltime`
and `last_timestep` hold the boundary sample — and the subsequent call
does compute a throughput from it, contradicting the claim that the
subsequent call has no valid prior baseline. -/
theorem estimator_broken_interval_baseline_not_cleared :
    (IntervalTPS.call { initial_timestep := some 0, last_timestep := some 5,
                        last_walltime := some 2, last_tps := none }
        ⟨12, 3, 10⟩).2 = none ∧
    (IntervalTPS.call { initial_timestep := some 0, last_timestep := some 5,
                        last_walltime := some 2, last_tps := none }
        ⟨12, 3, 10⟩).1.last_walltime = some 3 ∧
    (IntervalTPS.call { initial_timestep := some 0, last_timestep := some 5,
                        last_walltime := some 2, last_tps := none }
        ⟨12, 3, 10⟩).1.last_timestep = some 12 ∧
    ((IntervalTPS.call { initial_timestep := some 0, last_timestep := some 5,
                         last_walltime := some 2, last_tps := none }
        ⟨12, 3, 10⟩).1.call ⟨20, 5, 10⟩).2 = some (1/250) := by
  norm_num [IntervalTPS.call, IntervalTPS.finishCall, IntervalTPS.get_tps,
            IntervalTPS.update, SCALE_TPS, isNewRun]

/-- C9: when `initial_timestep` has increased and the recorded
`last_timestep` equals the new run start, the estimator resets its
walltime baseline to zero and returns
`(timestep - last_timestep) / (1000 * walltime)` over the new run's
walltime instead of `None`. -/
theorem estimator_contiguous_restart (s : IntervalTPS) (sim : SimState)
    (i0 : ℕ) (hinit : s.initial_timestep = some i0)
    (hgrow : i0 < sim.initial_timestep)
    (hlast : s.last_timestep = some sim.initial_timestep)
    (hstep : sim.timestep ≠ sim.initial_timestep) :
    s.call sim
      = ({ s with initial_timestep := some sim.initial_timestep,
                  last_timestep := some sim.timestep,
                  last_walltime := some sim.walltime,
                  last_tps := some (((sim.timestep : ℚ) - (sim.initial_timestep : ℚ))
                                      / (SCALE_TPS * sim.walltime)) },
         some (((sim.timestep : ℚ) - (sim.initial_timestep : ℚ))
                 / (SCALE_TPS * sim.walltime))) := by
  simp [IntervalTPS.call, IntervalTPS.finishCall, IntervalTPS.get_tps,
        IntervalTPS.update, hinit, hlast, hstep, Ne.symm hstep, isNewRun, hgrow]

/-- C4 (amended): `attach` never modifies the `tuned` flag — it keeps its
prior value; in particular the first attach after construction yields an
untuned controller, because `__init__` set the flag to `false`, but a
re-attach after a session in which `tuned` became `true` stays tuned. -/
theorem attach_preserves_tuned {σ : Type} (c : Controller σ) (s0 : σ)
    (b mb : ℚ) :
    (Controller.attach c).tuned = c.tuned ∧
    (Controller.attach (Controller.init s0 b mb)).tuned = false := by
  constructor <;> simp [Controller.attach, Controller.init]

/-- C4 counterexample: construct a controller, attach it, run one `act`
under a solver that immediately reports convergence, detach and re-attach;
`tuned` is `true` right after the second attach, contradicting the claim
that attach always yields the untuned state. -/
theorem attach_after_tuned_session_counterexample :
    (Controller.attach (Controller.detach (Controller.act convergeSolve
        (Controller.attach (Controller.init () (1/10) 1)) ⟨5, 1, 0⟩))).tuned
      = true := by
  simp [Controller.init, Controller.attach, Controller.detach, Controller.act,
        IntervalTPS.mk0, IntervalTPS.call, IntervalTPS.update, isNewRun,
        convergeSolve]

/-- C5: once `tuned` is `true`, `act` keeps it `true` and, further, does
not consult the solver at all — its result is the same for any two solve
functions. -/
theorem tuned_sticky {σ : Type} (solve1 solve2 : Solver σ)
    (c : Controller σ) (sim : SimState) (h : c.tuned = true) :
    (Controller.act solve1 c sim).tuned = true ∧
    Controller.act solve1 c sim = Controller.act solve2 c sim := by
  cases htn : c.tunable with
  | none => simp [Controller.act, htn, h]
  | some tn =>
      cases hr : (tn.est.call sim).2 with
      | none => simp [Controller.act, htn, hr, h]
      | some v => simp [Controller.act, htn, hr, h]

/-- Witness for C5 at a concrete tuned controller and sample, with two
different concrete solvers. -/
theorem tuned_sticky_witness :
    (Controller.act gridSolve cTunedEx ⟨5, 1, 0⟩).tuned = true ∧
    Controller.act gridSolve cTunedEx ⟨5, 1, 0⟩
      = Controller.act convergeSolve cTunedEx ⟨5, 1, 0⟩ :=
  tuned_sticky gridSolve convergeSolve cTunedEx ⟨5, 1, 0⟩ rfl

/-- C7: assigning `maximum_buffer` on an attached controller immediately
sets the tunable's domain to `(0, v)` — upper bound `v`, lower bound `0`,
estimator untouched — and stores the value; on any detached controller the
assignment only stores the value and leaves the rest of the state, the
tunable included, unchanged. -/
theorem set_maximum_buffer_live_domain {σ : Type} (c c2 : Controller σ)
    (v : ℚ) (tn : Tunable) (ha : c.attached = true)
    (htn : c.tunable = some tn) (h2 : c2.attached = false) :
    (c.set_maximum_buffer v).maximum_buffer = v ∧
    (c.set_maximum_buffer v).tunable
      = some { est := tn.est, domain := (0, v) } ∧
    c2.set_maximum_buffer v = { c2 with maximum_buffer := v } := by
  refine ⟨?_, ?_, ?_⟩
  · simp [Controller.set_maximum_buffer, ha]
  · simp [Controller.set_maximum_buffer, ha, htn]
  · simp [Controller.set_maximum_buffer, h2]

/-- Witness for C7 at a concrete attached controller, a concrete detached
controller and a concrete new bound. -/
theorem set_maximum_buffer_live_domain_witness :
    (Controller.set_maximum_buffer c1ex 5).maximum_buffer = 5 ∧
    (Controller.set_maximum_buffer c1ex 5).tunable
      = some { est := { initial_timestep := some 0, last_timestep := some 0,
                        last_walltime := some 0, last_tps := none },
               domain := (0, 5) } ∧
    Controller.set_maximum_buffer (Controller.init () (1/10) 1) 5
      = { Controller.init () (1/10) 1 with maximum_buffer := 5 } :=
  set_maximum_buffer_live_domain c1ex (Controller.init () (1/10) 1) 5 _
    rfl rfl rfl

/-- C8: a set-once field accepts its construction-time assignment, and any
later assignment errors immediately while the stored value stays what the
first assignment made it. -/
theorem set_once_rejects_reassignment {α : Type} (v w : α) :
    setOnceApply none v = some v ∧
    setOnceAssign (setOnceApply none v) w = Except.error () ∧
    setOnceApply (setOnceApply none v) w = some v := by
  simp [setOnceAssign, setOnceApply]

/-- Witness for C9 at a concrete state and sample. -/
theorem estimator_contiguous_restart_witness :
    IntervalTPS.call { initial_timestep := some 0, last_timestep := some 10,
                       last_walltime := some 4, last_tps := none }
        ⟨30, 2, 10⟩
      = ({ initial_timestep := some 10, last_timestep := some 30,
           last_walltime := some 2,
           last_tps := some (((30 : ℚ) - (10 : ℚ)) / (SCALE_TPS * 2)) },
         some (((30 : ℚ) - (10 : ℚ)) / (SCALE_TPS * 2))) :=
  estimator_contiguous_restart _ _ 0 rfl (by norm_num) rfl (by norm_num)

/-- C10: on every `act` through a present tunable, `last_tps` becomes
`y * _SCALE_TPS` when the sampled `y` is not `None` and is untouched
otherwise, tuned or not; and when `tuned` is already `true`, the only
state that changes at all is the estimator inside the tunable and
`last_tps` — `tuned`, `max_tps`, `best_buffer_size`, `buffer` and the
solver state all stay as they were. -/
theorem act_tuned_frame {σ : Type} (solve : Solver σ) (c : Controller σ)
    (sim : SimState) (tn : Tunable) (htn : c.tunable = some tn) :
    ((Controller.act solve c sim).last_tps
       = match (tn.est.call sim).2 with
         | some v => v * SCALE_TPS
         | none => c.last_tps) ∧
    (c.tuned = true →
      Controller.act solve c sim
        = { c with tunable := some { tn with est := (tn.est.call sim).1 },
                   last_tps := match (tn.est.call sim).2 with
                     | some v => v * SCALE_TPS
                     | none => c.last_tps }) := by
  cases hr : (tn.est.call sim).2 with
  | none =>
      constructor
      · by_cases ht : c.tuned <;> simp [Controller.act, htn, hr, ht]
      · intro ht; simp [Controller.act, htn, hr, ht]
  | some v =>
      constructor
      · by_cases ht : c.tuned
        · simp [Controller.act, htn, hr, ht]
        · by_cases hm : c.max_tps < v <;>
            simp [Controller.act, htn, hr, ht, hm]
      · intro ht; simp [Controller.act, htn, hr, ht]

/-- Witness for C10 at a concrete tuned controller and sample, with the
hypotheses discharged. -/
theorem act_tuned_frame_witness :
    ((Controller.act gridSolve cTunedEx ⟨5, 1, 0⟩).last_tps
       = match (tnEx.est.call ⟨5, 1, 0⟩).2 with
         | some v => v * SCALE_TPS
         | none => cTunedEx.last_tps) ∧
    Controller.act gridSolve cTunedEx ⟨5, 1, 0⟩
      = { cTunedEx with
            tunable := some { tnEx with est := (tnEx.est.call ⟨5, 1, 0⟩).1 },
            last_tps := match (tnEx.est.call ⟨5, 1, 0⟩).2 with
              | some v => v * SCALE_TPS
              | none => cTunedEx.last_tps } :=
  ⟨(act_tuned_frame gridSolve cTunedEx ⟨5, 1, 0⟩ tnEx rfl).1,
   (act_tuned_frame gridSolve cTunedEx ⟨5, 1, 0⟩ tnEx rfl).2 rfl⟩

/-- C1 failing run: an untuned attached controller sees `y = 1` (TPS 1000)
at buffer `1/10`, the solver moves the buffer to `1/5`, and the next act
sees `y = 2` (TPS 2000, as `last_tps` records).  The claim says the best
throughput record becomes `y` and hence `best_buffer_size` ends at the
highest-throughput candidate `1/5`; the code instead stores `y * 1000`
into `_max_tps` while comparing raw `y` against it, so `2 > 1000` fails
and `best_buffer_size` stays `1/10` with `max_tps` stuck at `1000`,
below the recorded TPS of the second sample. -/
theorem act_best_buffer_units_bug :
    (Controller.act gridSolve c1ex ⟨1000, 1, 0⟩).buffer = 1/5 ∧
    (Controller.act gridSolve (Controller.act gridSolve c1ex ⟨1000, 1, 0⟩)
        ⟨3000, 2, 0⟩).last_tps = 2000 ∧
    (Controller.act gridSolve (Controller.act gridSolve c1ex ⟨1000, 1, 0⟩)
        ⟨3000, 2, 0⟩).best_buffer_size = 1/10 ∧
    (Controller.act gridSolve (Controller.act gridSolve c1ex ⟨1000, 1, 0⟩)
        ⟨3000, 2, 0⟩).max_tps = 1000 := by
  have h1 : Controller.act gridSolve c1ex ⟨1000, 1, 0⟩
      = { attached := true, tuned := false, last_tps := 1000,
          best_buffer_size := 1/10, max_tps := 1000, maximum_buffer := 1,
          buffer := 1/5,
          tunable := some { est := { initial_timestep := some 0,
                                     last_timestep := some 1000,
                                     last_walltime := some 1,
                                     last_tps := some 1 },
                            domain := (0, 1) },
          solver := () } := by
    simp [Controller.act, c1ex, tnEx, gridSolve, IntervalTPS.call,
          IntervalTPS.finishCall, IntervalTPS.get_tps, IntervalTPS.update,
          isNewRun, SCALE_TPS]
  rw [h1]
  simp [Controller.act, gridSolve, IntervalTPS.call, IntervalTPS.finishCall,
        IntervalTPS.get_tps, IntervalTPS.update, isNewRun, SCALE_TPS]
  norm_num

/-- Helper: one steady-state step.  With a recorded baseline, an unchanged
run start and a fresh timestep, `__call__` returns the delta quotient and
moves the baseline to the current sample. -/
theorem call_steady (k tp : ℕ) (wp : ℚ) (ltps : Option ℚ) (sim : SimState)
    (hk : sim.initial_timestep = k) (hne : tp ≠ sim.timestep) :
    IntervalTPS.call { initial_timestep := some k, last_timestep := some tp,
                       last_walltime := some wp, last_tps := ltps } sim
      = ({ initial_timestep := some k, last_timestep := some sim.timestep,
           last_walltime := some sim.walltime,
           last_tps := some (((sim.timestep : ℚ) - (tp : ℚ))
                               / (SCALE_TPS * (sim.walltime - wp))) },
         some (((sim.timestep : ℚ) - (tp : ℚ))
                 / (SCALE_TPS * (sim.walltime - wp)))) := by
  simp [IntervalTPS.call, IntervalTPS.finishCall, IntervalTPS.get_tps,
        IntervalTPS.update, isNewRun, hk, hne]

/-- Helper: from an established baseline equal to the previous sample and
an unchanged run start, the estimator reports the spec-predicted
throughput at every subsequent sample. -/
theorem runEstimator_steady (k : ℕ) (sims : List SimState)
    (prev : SimState) (ltps : Option ℚ)
    (hall : ∀ s ∈ sims, s.initial_timestep = k)
    (hchain : List.Chain' (fun a b => a.timestep < b.timestep) (prev :: sims)) :
    (runEstimator { initial_timestep := some k,
                    last_timestep := some prev.timestep,
                    last_walltime := some prev.walltime,
                    last_tps := ltps } sims).2
      = specThroughputs prev sims := by
  induction sims generalizing prev ltps with
  | nil => simp [runEstimator, specThroughputs]
  | cons sim rest ih =>
      rw [List.chain'_cons] at hchain
      have hsim : sim.initial_timestep = k := hall sim (by simp)
      have hrest : ∀ s ∈ rest, s.initial_timestep = k := by
        intro s hs
        exact hall s (List.mem_cons_of_mem sim hs)
      have hne : prev.timestep ≠ sim.timestep := Nat.ne_of_lt hchain.1
      simp only [runEstimator, specThroughputs, call_steady k prev.timestep
        prev.walltime ltps sim hsim hne]
      rw [ih sim _ hrest hchain.2]
      simp [SCALE_TPS]

/-- C2: over any sample sequence with strictly increasing timestep and
walltime and a constant `initial_timestep`, the estimator started fresh
returns `None` on the very first call while recording the baseline, and on
each later call returns exactly
`(timestep - last_timestep) / (1000 * (walltime - last_walltime))`
against the previous sample. -/
theorem estimator_interval_throughputs (k : ℕ) (sim0 : SimState)
    (rest : List SimState)
    (hall : ∀ s ∈ sim0 :: rest, s.initial_timestep = k)
    (hts : List.Chain' (fun a b => a.timestep < b.timestep) (sim0 :: rest))
    (hws : List.Chain' (fun a b => a.walltime < b.walltime) (sim0 :: rest)) :
    (runEstimator IntervalTPS.mk0 (sim0 :: rest)).2
      = none :: specThroughputs sim0 rest := by
  have h0 : IntervalTPS.call IntervalTPS.mk0 sim0
      = ({ initial_timestep := some sim0.initial_timestep,
           last_timestep := some sim0.timestep,
           last_walltime := some sim0.walltime, last_tps := none }, none) := by
    simp [IntervalTPS.call, IntervalTPS.mk0, IntervalTPS.update, isNewRun]
  have hk0 : sim0.initial_timestep = k := hall sim0 (by simp)
  have hrest : ∀ s ∈ rest, s.initial_timestep = k := by
    intro s hs
    exact hall s (List.mem_cons_of_mem sim0 hs)
  simp only [runEstimator, h0, hk0]
  rw [runEstimator_steady k rest sim0 none hrest hts]

/-- Witness for C2 at a concrete three-sample sequence. -/
theorem estimator_interval_throughputs_witness :
    (runEstimator IntervalTPS.mk0
        [⟨10, 1, 0⟩, ⟨20, 2, 0⟩, ⟨40, 3, 0⟩]).2
      = none :: specThroughputs ⟨10, 1, 0⟩ [⟨20, 2, 0⟩, ⟨40, 3, 0⟩] :=
  estimator_interval_throughputs 0 ⟨10, 1, 0⟩ [⟨20, 2, 0⟩, ⟨40, 3, 0⟩]
    (by intro s hs; simp at hs; rcases hs with h | h | h <;> simp [h])
    (by simp [List.chain'_cons])
    (by norm_num [List.chain'_cons])
